import Mathlib

/-!
Shallow embedding of the `zoho-desk-worker` Cloudflare worker.

The repository holds three revisions of one HTTP handler:

* `src/src/index.ts`, first part (before the document separator): router with a
  single hard-coded CORS origin (`ALLOWED_ORIGIN`), which `await`s
  `handleTicketCreation` and then returns a fixed `202` acknowledgement.
* `src/src/index.ts`, second part: same router, but with an allow-list
  (`ALLOWED_ORIGINS`) and an origin-echoing `withCorsHeaders(request, response)`.
* `src/unnamed/part_000`: fire-and-forget revision: `ctx.waitUntil(handleTicketCreation(...))`
  and an immediate `202`; no CORS handling at all; plain-text description and a
  `subject - name` ticket subject.

Pure computations (description builders, subject strings, payload shaping,
CORS header attachment) are embedded as Lean functions.  The effectful
handlers are embedded as functions from an oracle (`World`: the outcomes the
outside world would deliver for `request.json()`, `getAccessToken()` and the
helpdesk POST) to a response paired with a trace of observable events
(log lines, the token call, the helpdesk POST, responding to the caller).
-/

/-- Inbound ticket payload (`interface TicketData` in `index.ts`).
`orderNumber?` is optional in the source, hence `Option`; the `part_000`
revision reads the same fields except `store`. -/
structure TicketData where
  store : String
  name : String
  email : String
  subject : String
  orderNumber : Option String
  details : String
  departmentId : String
deriving DecidableEq, Repr

/-- JavaScript string truthiness for an optional string field:
`undefined` and the empty string are falsy. -/
def truthy : Option String → Bool
  | none => false
  | some s => s ≠ ""

/-- The lines pushed into `descriptionArray` by `createDetailedDescription`
in `index.ts`: an order-number line when `ticketData.orderNumber` is truthy,
then always the detail line. -/
def descriptionLines (td : TicketData) : List String :=
  (if truthy td.orderNumber then
    ["<div><strong>Order Number:</strong>" ++ td.orderNumber.getD "" ++ "</div>"]
  else []) ++
  ["<div><strong>Detail:</strong> " ++ td.details ++ "</div>"]

/-- `createDetailedDescription` in `index.ts`: join the description lines
with `<br/>`. -/
def createDetailedDescription (td : TicketData) : String :=
  String.intercalate "<br/>" (descriptionLines td)

/-- Subject built in `index.ts`: `` `${store} | ${subject} | ${name}` ``. -/
def ticketSubject (td : TicketData) : String :=
  td.store ++ " | " ++ td.subject ++ " | " ++ td.name

/-- `part_000`: `` const orderNumberString = ticketData.orderNumber ? `Order number: ${...} \n\n` : '' ``. -/
def orderNumberString (td : TicketData) : String :=
  if truthy td.orderNumber then
    "Order number: " ++ td.orderNumber.getD "" ++ " \n\n"
  else ""

/-- `part_000`: `ticketDescription = orderNumberString + ticketData.details`. -/
def ticketDescriptionFF (td : TicketData) : String :=
  orderNumberString td ++ td.details

/-- Subject built in `part_000`: `` `${subject} - ${name}` ``. -/
def ticketSubjectFF (td : TicketData) : String :=
  td.subject ++ " - " ++ td.name

/-- The `contact` object sent to the helpdesk API. -/
structure Contact where
  firstName : String
  lastName : String
  email : String
deriving DecidableEq, Repr

/-- The JSON body POSTed to `https://<domain>/api/v1/tickets`. -/
structure TicketPayload where
  subject : String
  email : String
  description : String
  contact : Contact
  departmentId : String
deriving DecidableEq, Repr

/-- The outbound body built in `index.ts`'s `handleTicketCreation`:
contact `firstName` and `lastName` are both `ticketData.name`, and the
email appears top-level and inside `contact`. -/
def buildTicketPayload (td : TicketData) : TicketPayload :=
  { subject := ticketSubject td
    email := td.email
    description := createDetailedDescription td
    contact := { firstName := td.name, lastName := td.name, email := td.email }
    departmentId := td.departmentId }

/-- The outbound body built in `part_000`'s `handleTicketCreation`
(different subject and description, same contact shape). -/
def buildTicketPayloadFF (td : TicketData) : TicketPayload :=
  { subject := ticketSubjectFF td
    email := td.email
    description := ticketDescriptionFF td
    contact := { firstName := td.name, lastName := td.name, email := td.email }
    departmentId := td.departmentId }

/-- Inbound HTTP request, reduced to what the handlers inspect:
method, URL path, and the `Origin` header (absent = `none`). -/
structure HttpRequest where
  method : String
  path : String
  origin : Option String
deriving DecidableEq, Repr

/-- Outbound HTTP response: status, body and headers (association list). -/
structure HttpResponse where
  status : Nat
  body : String
  headers : List (String × String)
deriving DecidableEq, Repr

/-- `Headers.set`: replace any existing entry for the key, then add it. -/
def setHeader (hs : List (String × String)) (k v : String) : List (String × String) :=
  hs.filter (fun p => p.1 ≠ k) ++ [(k, v)]

/-- `Headers.get`: the value stored for a key, if any (first match). -/
def getHeader : List (String × String) → String → Option String
  | [], _ => none
  | p :: rest, k => if p.1 = k then some p.2 else getHeader rest k

/-- First `index.ts` revision: `const ALLOWED_ORIGIN = 'https://misthub.com'`. -/
def ALLOWED_ORIGIN : String := "https://misthub.com"

/-- First `index.ts` revision's `withCorsHeaders(response)`: always set
`Access-Control-Allow-Origin` to the fixed `ALLOWED_ORIGIN`, keeping
status and body. -/
def withCorsHeaders (resp : HttpResponse) : HttpResponse :=
  { resp with headers := setHeader resp.headers "Access-Control-Allow-Origin" ALLOWED_ORIGIN }

/-- Second `index.ts` revision: `const ALLOWED_ORIGINS = [...]`. -/
def ALLOWED_ORIGINS : List String :=
  ["https://misthub.com",
   "https://ejuices.com",
   "https://www.ejuices.com",
   "https://eliquid.com",
   "https://www.eliquid.com",
   "https://ejuices.co",
   "https://www.ejuices.co"]

/-- Second `index.ts` revision's `withCorsHeaders(request, response)`:
echo the request `Origin` when it is truthy and in the allow-list,
otherwise fall back to `ALLOWED_ORIGINS[0]`. -/
def withCorsHeadersB (req : HttpRequest) (resp : HttpResponse) : HttpResponse :=
  { resp with
    headers :=
      match req.origin with
      | some o =>
          if o ≠ "" ∧ o ∈ ALLOWED_ORIGINS then
            setHeader resp.headers "Access-Control-Allow-Origin" o
          else
            setHeader resp.headers "Access-Control-Allow-Origin" (ALLOWED_ORIGINS.getD 0 "")
      | none => setHeader resp.headers "Access-Control-Allow-Origin" (ALLOWED_ORIGINS.getD 0 "") }

/-- Customer profile snapshot, for the spec-modelled enrichment revision. -/
structure CustomerProfile where
  name : String
  email : String
deriving DecidableEq, Repr

/-- Order record snapshot, for the spec-modelled enrichment revision. -/
structure OrderRecord where
  id : String
  total : String
  status : String
deriving DecidableEq, Repr

/-- Observable events of one invocation, in temporal order:
log lines (level, message, optional error payload), the `getAccessToken`
call, the two enrichment reads, the helpdesk POST (with its body), and the
moment a response is handed to the caller. -/
inductive Event where
  | log (level : String) (message : String) (err : Option String)
  | tokenCall
  | customerDetailsCall (email : String)
  | orderHistoryCall (email : String)
  | deskPost (payload : TicketPayload)
  | respond (resp : HttpResponse)
deriving DecidableEq, Repr

/-- Oracle for one invocation: what the outside world would answer.
`parseBody` is the outcome of `await request.json()` (a thrown error is its
message), `tokenResult` the outcome of `ZOHO_OAUTH_WORKER.getAccessToken()`,
`deskStatus` the HTTP status of the helpdesk POST, `deskJson` the outcome of
`ticketResponse.json()` (already re-serialised, since the handler returns
`JSON.stringify(responseData)`).  `customerResult` / `orderHistory` are read
only by the spec-modelled enrichment revision. -/
structure World where
  parseBody : Except String TicketData
  tokenResult : Except String String
  deskStatus : Nat
  deskJson : Except String String
  customerResult : Option CustomerProfile
  orderHistory : List OrderRecord
deriving Repr

/-- `'Content-Type': 'application/json'`. -/
def ctJson : List (String × String) := [("Content-Type", "application/json")]

/-- `JSON.stringify(\x7b error: errorMessage \x7d)`. -/
def jsonError (msg : String) : String :=
  "\x7b\"error\":\"" ++ msg ++ "\"\x7d"

/-- `JSON.stringify(\x7b status: 'processing', message: 'Request received' \x7d)`. -/
def processingBody : String :=
  "\x7b\"status\":\"processing\",\"message\":\"Request received\"\x7d"

/-- `handleTicketCreation` of the first `index.ts` revision, as
response × event trace.  Non-`POST` → bare `405`; then the `try` block:
parse body, get token, build description/subject, POST to the helpdesk,
parse its JSON, relay status and body; any thrown error is caught, logged
and turned into a CORS-wrapped `500` with `jsonError`. -/
def handleTicketCreation (w : World) (req : HttpRequest) : HttpResponse × List Event :=
  if req.method ≠ "POST" then
    ({ status := 405, body := "Method not allowed", headers := [] },
     [.log "warn" ("Invalid request method: " ++ req.method) none])
  else
    let headerLog : Event := .log "info" "handleTicketCreation header" none
    match w.parseBody with
    | .error msg =>
        (withCorsHeaders { status := 500, body := jsonError msg, headers := ctJson },
         [headerLog, .log "error" "Error during ticket creation" (some msg)])
    | .ok td =>
        let recvLog : Event := .log "info" "Received ticket data" none
        match w.tokenResult with
        | .error msg =>
            (withCorsHeaders { status := 500, body := jsonError msg, headers := ctJson },
             [headerLog, recvLog, .tokenCall,
              .log "error" "Error during ticket creation" (some msg)])
        | .ok _token =>
            let tokenLog : Event := .log "info" "Retrieved valid Zoho access token" none
            let payload := buildTicketPayload td
            match w.deskJson with
            | .error msg =>
                (withCorsHeaders { status := 500, body := jsonError msg, headers := ctJson },
                 [headerLog, recvLog, .tokenCall, tokenLog, .deskPost payload,
                  .log "error" "Error during ticket creation" (some msg)])
            | .ok data =>
                (withCorsHeaders { status := w.deskStatus, body := data, headers := ctJson },
                 [headerLog, recvLog, .tokenCall, tokenLog, .deskPost payload,
                  .log "info" "Ticket created in Zoho Desk" none])

/-- `handleTicketCreation` of `part_000`: identical control flow, but no
CORS wrapping anywhere and the `part_000` subject/description/payload. -/
def handleTicketCreationFF (w : World) (req : HttpRequest) : HttpResponse × List Event :=
  if req.method ≠ "POST" then
    ({ status := 405, body := "Method not allowed", headers := [] },
     [.log "warn" ("Invalid request method: " ++ req.method) none])
  else
    let headerLog : Event := .log "info" "handleTicketCreation header" none
    match w.parseBody with
    | .error msg =>
        ({ status := 500, body := jsonError msg, headers := ctJson },
         [headerLog, .log "error" "Error during ticket creation" (some msg)])
    | .ok td =>
        let recvLog : Event := .log "info" "Received ticket data" none
        match w.tokenResult with
        | .error msg =>
            ({ status := 500, body := jsonError msg, headers := ctJson },
             [headerLog, recvLog, .tokenCall,
              .log "error" "Error during ticket creation" (some msg)])
        | .ok _token =>
            let tokenLog : Event := .log "info" "Retrieved valid Zoho access token" none
            let payload := buildTicketPayloadFF td
            match w.deskJson with
            | .error msg =>
                ({ status := 500, body := jsonError msg, headers := ctJson },
                 [headerLog, recvLog, .tokenCall, tokenLog, .deskPost payload,
                  .log "error" "Error during ticket creation" (some msg)])
            | .ok data =>
                ({ status := w.deskStatus, body := data, headers := ctJson },
                 [headerLog, recvLog, .tokenCall, tokenLog, .deskPost payload,
                  .log "info" "Ticket created in Zoho Desk" none])

/-- The `OPTIONS` response literal built by the first `index.ts` revision's
`fetch` handler. -/
def optionsResponse : HttpResponse :=
  { status := 204
    body := ""
    headers :=
      [("Access-Control-Allow-Origin", ALLOWED_ORIGIN),
       ("Access-Control-Allow-Methods", "POST, OPTIONS"),
       ("Access-Control-Allow-Headers", "Content-Type"),
       ("Access-Control-Max-Age", "86400")] }

/-- `fetch` of the first `index.ts` revision, as response × full trace.
`OPTIONS` is answered `204` up front; `/tickets` runs `handleTicketCreation`
to completion (`await`), discards its response, and only then returns the
CORS-wrapped fixed `202` acknowledgement; other paths get a CORS-wrapped
`404`.  The `respond` event marks when the caller receives the response. -/
def fetchRouter (w : World) (req : HttpRequest) : HttpResponse × List Event :=
  if req.method = "OPTIONS" then
    (optionsResponse, [.respond optionsResponse])
  else if req.path = "/tickets" then
    let handled := handleTicketCreation w req
    let resp := withCorsHeaders { status := 202, body := processingBody, headers := ctJson }
    (resp, handled.2 ++ [.respond resp])
  else
    let resp := withCorsHeaders { status := 404, body := "Not found", headers := [] }
    (resp, [.respond resp])

/-- The `OPTIONS` response of the second `index.ts` revision: the same
`204` literal with `Access-Control-Allow-Origin: ALLOWED_ORIGINS[0]`, then
passed through `withCorsHeaders(request, ·)`. -/
def optionsResponseB (req : HttpRequest) : HttpResponse :=
  withCorsHeadersB req
    { status := 204
      body := ""
      headers :=
        [("Access-Control-Allow-Origin", ALLOWED_ORIGINS.getD 0 ""),
         ("Access-Control-Allow-Methods", "POST, OPTIONS"),
         ("Access-Control-Allow-Headers", "Content-Type"),
         ("Access-Control-Max-Age", "86400")] }

/-- `fetch` of `part_000`: no `OPTIONS` branch, no CORS.  On `/tickets` the
ticket creation is only scheduled (`ctx.waitUntil`) and the fixed `202`
acknowledgement is returned at once, so in the trace the `respond` event
precedes every event of the background task. -/
def fetchFF (w : World) (req : HttpRequest) : HttpResponse × List Event :=
  if req.path = "/tickets" then
    let resp : HttpResponse := { status := 202, body := processingBody, headers := ctJson }
    (resp, .respond resp :: (handleTicketCreationFF w req).2)
  else
    let resp : HttpResponse := { status := 404, body := "Not found", headers := [] }
    (resp, [.respond resp])

/-- Modelled from the spec: one line per order in the history section
("identifier, total, status, in the order returned by the backend"). -/
def orderLine (o : OrderRecord) : String :=
  "<div>Order " ++ o.id ++ " - " ++ o.total ++ " - " ++ o.status ++ "</div>"

/-- Modelled from the spec: the customer-profile section of the enriched
description ("a disclaimer line ... followed by name and email lines"). -/
def customerSection : Option CustomerProfile → List String
  | none => []
  | some c =>
      ["<div>Customer match may be inaccurate</div>",
       "<div>Name: " ++ c.name ++ "</div>",
       "<div>Email: " ++ c.email ++ "</div>"]

/-- Modelled from the spec: the order-history section of the enriched
description ("a header line followed by one line per order", only when the
history is non-empty). -/
def orderSection (orders : List OrderRecord) : List String :=
  if orders = [] then [] else "<div><strong>Order History:</strong></div>" :: orders.map orderLine

/-- Modelled from the spec: the Description Builder of the enrichment-capable
revision, which is not under `src/` (the spec counts five handler revisions;
`src/` holds three, none of which calls the Enrichment Client).  Order-number
line when present, always the detail line, then the customer and order
sections. -/
def enrichedDescriptionLines (td : TicketData) (cust : Option CustomerProfile)
    (orders : List OrderRecord) : List String :=
  descriptionLines td ++ customerSection cust ++ orderSection orders

/-- Modelled from the spec: `getOrderHistory` returns "most recent first,
max 5" records; the cap comes from the backend query's page size. -/
def getOrderHistoryResult (w : World) : List OrderRecord :=
  w.orderHistory.take 5

/-- Modelled from the spec: `handleTicketCreation` of the enrichment-capable
revision, absent from `src/`.  After the token is obtained, and only when the
submission carries a (truthy) email, the Enrichment Client is invoked for the
customer profile and the order history before the helpdesk POST; with no
email, no enrichment call happens and the description holds only the detail
(and optional order-number) line. -/
def handleTicketCreationEnriched (w : World) (req : HttpRequest) :
    HttpResponse × List Event :=
  if req.method ≠ "POST" then
    ({ status := 405, body := "Method not allowed", headers := [] },
     [.log "warn" ("Invalid request method: " ++ req.method) none])
  else
    match w.parseBody with
    | .error msg =>
        ({ status := 500, body := jsonError msg, headers := ctJson },
         [.log "error" "Error during ticket creation" (some msg)])
    | .ok td =>
        match w.tokenResult with
        | .error msg =>
            ({ status := 500, body := jsonError msg, headers := ctJson },
             [.tokenCall, .log "error" "Error during ticket creation" (some msg)])
        | .ok _token =>
            let enrich : Option CustomerProfile × List OrderRecord × List Event :=
              if td.email ≠ "" then
                (w.customerResult, getOrderHistoryResult w,
                 [.customerDetailsCall td.email, .orderHistoryCall td.email])
              else (none, [], [])
            let desc := String.intercalate "<br/>" (enrichedDescriptionLines td enrich.1 enrich.2.1)
            let payload : TicketPayload :=
              { subject := ticketSubject td
                email := td.email
                description := desc
                contact := { firstName := td.name, lastName := td.name, email := td.email }
                departmentId := td.departmentId }
            match w.deskJson with
            | .error msg =>
                ({ status := 500, body := jsonError msg, headers := ctJson },
                 [.tokenCall] ++ enrich.2.2 ++
                  [.deskPost payload, .log "error" "Error during ticket creation" (some msg)])
            | .ok data =>
                ({ status := w.deskStatus, body := data, headers := ctJson },
                 [.tokenCall] ++ enrich.2.2 ++
                  [.deskPost payload, .log "info" "Ticket created in Zoho Desk" none])

/-- `a` occurs strictly before `b` in the trace `tr`. -/
def eventBefore (tr : List Event) (a b : Event) : Prop :=
  ∃ l₁ l₂ l₃, tr = l₁ ++ a :: l₂ ++ b :: l₃

/-- The spec's end-to-end example submission (`store:"A"`, no order number). -/
def janeTicket : TicketData :=
  { store := "A", name := "Jane", email := "jane@x.com", subject := "Broken item"
    orderNumber := none, details := "item arrived broken", departmentId := "12" }

/-- Concrete `POST /tickets` request. -/
def postReq : HttpRequest := { method := "POST", path := "/tickets", origin := none }

/-- Concrete `GET /tickets` request. -/
def getReq : HttpRequest := { method := "GET", path := "/tickets", origin := none }

/-- Concrete `OPTIONS /tickets` request. -/
def optionsTicketsReq : HttpRequest := { method := "OPTIONS", path := "/tickets", origin := none }

/-- Oracle in which every downstream call succeeds. -/
def okWorld : World :=
  { parseBody := .ok janeTicket, tokenResult := .ok "tok", deskStatus := 200
    deskJson := .ok "\x7b\x7d", customerResult := none, orderHistory := [] }

/-- Oracle in which the helpdesk answers a failure status with a parsable
JSON error body. -/
def deskFailWorld : World :=
  { parseBody := .ok janeTicket, tokenResult := .ok "tok", deskStatus := 422
    deskJson := .ok "\x7b\"errorCode\":\"UNPROCESSABLE\"\x7d"
    customerResult := none, orderHistory := [] }

/-- Oracle in which `getAccessToken()` throws. -/
def tokenFailWorld : World :=
  { parseBody := .ok janeTicket, tokenResult := .error "token service down", deskStatus := 200
    deskJson := .ok "\x7b\x7d", customerResult := none, orderHistory := [] }

theorem getHeader_setHeader (hs : List (String × String)) (k v : String) :
    getHeader (setHeader hs k v) k = some v := by
  induction hs with
  | nil => simp [getHeader, setHeader]
  | cons hd tl ih =>
      by_cases h : hd.1 = k
      · simpa [getHeader, setHeader, List.filter_cons, h] using ih
      · simpa [getHeader, setHeader, List.filter_cons, h] using ih

theorem getHeader_setHeader_ne (hs : List (String × String)) (k v k' : String)
    (h : k ≠ k') : getHeader (setHeader hs k v) k' = getHeader hs k' := by
  induction hs with
  | nil => simp [getHeader, setHeader, h]
  | cons hd tl ih =>
      by_cases h1 : hd.1 = k
      · have h2 : hd.1 ≠ k' := by rw [h1]; exact h
        simpa [getHeader, setHeader, List.filter_cons, h1, h2, h, Ne.symm h] using ih
      · by_cases h2 : hd.1 = k'
        · simp [getHeader, setHeader, List.filter_cons, h1, h2, h, Ne.symm h]
        · simpa [getHeader, setHeader, List.filter_cons, h1, h2, h, Ne.symm h] using ih

theorem intercalate_pair (s a b : String) : String.intercalate s [a, b] = a ++ s ++ b := by
  simp [String.intercalate, String.intercalate.go, String.append_assoc]

/-- Claim C9: on the spec's end-to-end example (no order number), the built
description is exactly the single detail line
`<div><strong>Detail:</strong> item arrived broken</div>` (the joined list
has one element), and the subject POSTed to the helpdesk equals
`A | Broken item | Jane` — including in an actual successful run. -/
theorem c9_end_to_end_example :
    createDetailedDescription janeTicket = "<div><strong>Detail:</strong> item arrived broken</div>" ∧
    descriptionLines janeTicket = ["<div><strong>Detail:</strong> item arrived broken</div>"] ∧
    (buildTicketPayload janeTicket).subject = "A | Broken item | Jane" ∧
    Event.deskPost (buildTicketPayload janeTicket) ∈ (handleTicketCreation okWorld postReq).2 := by
  refine ⟨rfl, rfl, rfl, ?_⟩
  simp [handleTicketCreation, okWorld, postReq]

/-- Claim C8: when the order number is present, the first line of the built
description contains it (in `index.ts` the first element of the joined list;
in `part_000` the leading `Order number:` segment of the plain-text
description); when it is absent, the description holds no order-number line
(it is exactly the detail line / the raw details). -/
theorem c8_order_number_line (td : TicketData) :
    (∀ s, td.orderNumber = some s →
       ∃ pre post, (descriptionLines td).headD "" = pre ++ s ++ post) ∧
    (∀ s, td.orderNumber = some s → s ≠ "" →
       createDetailedDescription td =
         "<div><strong>Order Number:</strong>" ++ s ++ "</div>" ++ "<br/>" ++
           ("<div><strong>Detail:</strong> " ++ td.details ++ "</div>")) ∧
    (td.orderNumber = none →
       descriptionLines td = ["<div><strong>Detail:</strong> " ++ td.details ++ "</div>"]) ∧
    (∀ s, td.orderNumber = some s → s ≠ "" →
       ticketDescriptionFF td = "Order number: " ++ s ++ " \n\n" ++ td.details) ∧
    (td.orderNumber = none → ticketDescriptionFF td = td.details) := by
  refine ⟨?_, ?_, ?_, ?_, ?_⟩
  · intro s hs
    by_cases h : s = ""
    · subst h
      refine ⟨"", ("<div><strong>Detail:</strong> " ++ td.details ++ "</div>"), ?_⟩
      simp [descriptionLines, truthy, hs]
    · refine ⟨"<div><strong>Order Number:</strong>", "</div>", ?_⟩
      simp [descriptionLines, truthy, hs, h]
  · intro s hs h
    have hl : descriptionLines td =
        ["<div><strong>Order Number:</strong>" ++ s ++ "</div>",
         "<div><strong>Detail:</strong> " ++ td.details ++ "</div>"] := by
      simp [descriptionLines, truthy, hs, h]
    rw [createDetailedDescription, hl, intercalate_pair]
  · intro hn
    simp [descriptionLines, truthy, hn]
  · intro s hs h
    simp [ticketDescriptionFF, orderNumberString, truthy, hs, h, String.append_assoc]
  · intro hn
    simp [ticketDescriptionFF, orderNumberString, truthy, hn]

/-- Witness for C8 at concrete inputs: order number `123` present, and absent. -/
theorem c8_order_number_line_witness :
    (∃ pre post,
       (descriptionLines { janeTicket with orderNumber := some "123" }).headD "" =
         pre ++ "123" ++ post) ∧
    descriptionLines janeTicket = ["<div><strong>Detail:</strong> item arrived broken</div>"] ∧
    ticketDescriptionFF janeTicket = janeTicket.details := by
  refine ⟨(c8_order_number_line { janeTicket with orderNumber := some "123" }).1 "123" rfl, ?_, ?_⟩
  · simpa using (c8_order_number_line janeTicket).2.2.1 rfl
  · exact (c8_order_number_line janeTicket).2.2.2.2 rfl

/-- Claim C1: in the fire-and-forget revision (`part_000`, the only revision
that schedules ticket creation with `ctx.waitUntil`), every `/tickets`
request is answered `202` with exactly the fixed acknowledgement body, the
response event precedes every event of the background task (so the caller
has the response before any downstream call completes), and the response
does not depend on the world's answers, so the caller never learns whether
ticket creation succeeded. -/
theorem c1_fire_and_forget_ack (w : World) (req : HttpRequest)
    (hpath : req.path = "/tickets") :
    (fetchFF w req).1.status = 202 ∧
    (fetchFF w req).1.body = processingBody ∧
    (∃ rest, (fetchFF w req).2 = Event.respond (fetchFF w req).1 :: rest) ∧
    (∀ w' : World, (fetchFF w' req).1 = (fetchFF w req).1) := by
  refine ⟨?_, ?_, ⟨(handleTicketCreationFF w req).2, ?_⟩, ?_⟩ <;>
    simp [fetchFF, hpath]

/-- Witness for C1 at `GET /tickets` with the all-success oracle. -/
theorem c1_fire_and_forget_ack_witness :
    getReq.path = "/tickets" ∧
    (fetchFF okWorld getReq).1.status = 202 ∧
    (fetchFF okWorld getReq).1.body = processingBody ∧
    (∃ rest, (fetchFF okWorld getReq).2 = Event.respond (fetchFF okWorld getReq).1 :: rest) ∧
    (∀ w' : World, (fetchFF w' getReq).1 = (fetchFF okWorld getReq).1) :=
  ⟨rfl, c1_fire_and_forget_ack okWorld getReq rfl⟩

/-- Counterexample to C2 as stated: for `GET /tickets` the caller receives
`202`, not `405`, in both the `index.ts` router (which runs the handler but
discards its `405` response) and the `part_000` router. -/
theorem c2_counterexample_caller_gets_202 :
    (fetchRouter okWorld getReq).1.status = 202 ∧
    (fetchFF okWorld getReq).1.status = 202 ∧
    ¬ (fetchRouter okWorld getReq).1.status = 405 ∧
    ¬ (fetchFF okWorld getReq).1.status = 405 := by decide

/-- Claim C2 (amended): for non-`POST` requests to `/tickets`,
`handleTicketCreation` itself produces a `405` response, but the routers
discard it: the caller receives `202` (`204` when the method is `OPTIONS`,
which the `index.ts` router intercepts before routing). -/
theorem c2_amended_handler_405_discarded (w : World) (req : HttpRequest)
    (hpath : req.path = "/tickets") (hm : req.method ≠ "POST") :
    (handleTicketCreation w req).1.status = 405 ∧
    (handleTicketCreationFF w req).1.status = 405 ∧
    (fetchRouter w req).1.status = (if req.method = "OPTIONS" then 204 else 202) ∧
    (fetchFF w req).1.status = 202 := by
  refine ⟨?_, ?_, ?_, ?_⟩
  · simp [handleTicketCreation, hm]
  · simp [handleTicketCreationFF, hm]
  · by_cases ho : req.method = "OPTIONS" <;>
      simp [fetchRouter, hpath, ho, optionsResponse, withCorsHeaders]
  · simp [fetchFF, hpath]

/-- Witness for the amended C2 at `GET /tickets`. -/
theorem c2_amended_handler_405_discarded_witness :
    getReq.path = "/tickets" ∧ getReq.method ≠ "POST" ∧
    ((handleTicketCreation okWorld getReq).1.status = 405 ∧
     (handleTicketCreationFF okWorld getReq).1.status = 405 ∧
     (fetchRouter okWorld getReq).1.status = (if getReq.method = "OPTIONS" then 204 else 202) ∧
     (fetchFF okWorld getReq).1.status = 202) :=
  ⟨rfl, by decide, c2_amended_handler_405_discarded okWorld getReq rfl (by decide)⟩

/-- Counterexample to C3 as stated: on a downstream failure status (`422`
with a JSON error body) the handler does not surface a thrown error (which
the `catch` block would turn into a `500` response); it relays the `422`
and the downstream body unchanged. -/
theorem c3_counterexample_failure_relayed :
    (handleTicketCreation deskFailWorld postReq).1.status = 422 ∧
    (handleTicketCreation deskFailWorld postReq).1.body =
      "\x7b\"errorCode\":\"UNPROCESSABLE\"\x7d" ∧
    ¬ (handleTicketCreation deskFailWorld postReq).1.status = 500 := by decide

/-- Claim C3 (amended): the handler parses the downstream JSON response
regardless of its status code and relays the downstream body and status
verbatim whether or not the status indicates failure; no downstream error
message is surfaced as a thrown error — the only throw at that stage is a
failing `ticketResponse.json()`, which the `catch` turns into a `500`. -/
theorem c3_amended_relay_regardless (w : World) (req : HttpRequest)
    (hm : req.method = "POST") (td : TicketData) (hp : w.parseBody = Except.ok td)
    (tok : String) (ht : w.tokenResult = Except.ok tok) :
    (∀ data, w.deskJson = Except.ok data →
       (handleTicketCreation w req).1.status = w.deskStatus ∧
       (handleTicketCreation w req).1.body = data) ∧
    (∀ msg, w.deskJson = Except.error msg →
       (handleTicketCreation w req).1.status = 500 ∧
       (handleTicketCreation w req).1.body = jsonError msg) ∧
    (∀ data, w.deskJson = Except.ok data →
       (handleTicketCreationFF w req).1.status = w.deskStatus ∧
       (handleTicketCreationFF w req).1.body = data) := by
  refine ⟨?_, ?_, ?_⟩ <;> intro x hx <;>
    simp [handleTicketCreation, handleTicketCreationFF, hm, hp, ht, hx, withCorsHeaders]

/-- Witness for the amended C3 on the `422` helpdesk answer. -/
theorem c3_amended_relay_regardless_witness :
    postReq.method = "POST" ∧
    deskFailWorld.parseBody = Except.ok janeTicket ∧
    deskFailWorld.tokenResult = Except.ok "tok" ∧
    deskFailWorld.deskJson = Except.ok "\x7b\"errorCode\":\"UNPROCESSABLE\"\x7d" ∧
    ((handleTicketCreation deskFailWorld postReq).1.status = deskFailWorld.deskStatus ∧
     (handleTicketCreation deskFailWorld postReq).1.body =
       "\x7b\"errorCode\":\"UNPROCESSABLE\"\x7d") :=
  ⟨rfl, rfl, rfl, rfl,
   (c3_amended_relay_regardless deskFailWorld postReq rfl janeTicket rfl "tok" rfl).1
     "\x7b\"errorCode\":\"UNPROCESSABLE\"\x7d" rfl⟩

/-- Claim C4: when `getAccessToken()` throws, no helpdesk POST event occurs,
and a `500` result carrying the error message is produced, together with an
error log line carrying the message — in both the awaited revision and the
fire-and-forget revision (where only the log is observable). -/
theorem c4_token_failure_no_post (w : World) (req : HttpRequest)
    (hm : req.method = "POST") (td : TicketData) (hp : w.parseBody = Except.ok td)
    (msg : String) (ht : w.tokenResult = Except.error msg) :
    (∀ p, Event.deskPost p ∉ (handleTicketCreation w req).2) ∧
    (handleTicketCreation w req).1.status = 500 ∧
    (handleTicketCreation w req).1.body = jsonError msg ∧
    Event.log "error" "Error during ticket creation" (some msg) ∈
      (handleTicketCreation w req).2 ∧
    (∀ p, Event.deskPost p ∉ (handleTicketCreationFF w req).2) ∧
    (handleTicketCreationFF w req).1.status = 500 ∧
    (handleTicketCreationFF w req).1.body = jsonError msg ∧
    Event.log "error" "Error during ticket creation" (some msg) ∈
      (handleTicketCreationFF w req).2 := by
  simp [handleTicketCreation, handleTicketCreationFF, hm, hp, ht, withCorsHeaders]

/-- Witness for C4 with a throwing token provider. -/
theorem c4_token_failure_no_post_witness :
    postReq.method = "POST" ∧
    tokenFailWorld.parseBody = Except.ok janeTicket ∧
    tokenFailWorld.tokenResult = Except.error "token service down" ∧
    Event.deskPost (buildTicketPayload janeTicket) ∉
      (handleTicketCreation tokenFailWorld postReq).2 ∧
    (handleTicketCreation tokenFailWorld postReq).1.status = 500 ∧
    (handleTicketCreation tokenFailWorld postReq).1.body = jsonError "token service down" ∧
    Event.log "error" "Error during ticket creation" (some "token service down") ∈
      (handleTicketCreationFF tokenFailWorld postReq).2 :=
  ⟨rfl, rfl, rfl,
   (c4_token_failure_no_post tokenFailWorld postReq rfl janeTicket rfl
      "token service down" rfl).1 (buildTicketPayload janeTicket),
   (c4_token_failure_no_post tokenFailWorld postReq rfl janeTicket rfl
      "token service down" rfl).2.1,
   (c4_token_failure_no_post tokenFailWorld postReq rfl janeTicket rfl
      "token service down" rfl).2.2.1,
   (c4_token_failure_no_post tokenFailWorld postReq rfl janeTicket rfl
      "token service down" rfl).2.2.2.2.2.2.2⟩

/-- Concrete request whose `Origin` header is an allow-list entry. -/
def originReq : HttpRequest :=
  { method := "POST", path := "/tickets", origin := some "https://ejuices.com" }

/-- Concrete bare response to decorate with CORS headers. -/
def plainResp : HttpResponse := { status := 200, body := "ok", headers := ctJson }

/-- Claim C6: with the allow-list `withCorsHeaders(request, response)`, a
request whose `Origin` exactly matches an allow-list entry gets that origin
echoed in `Access-Control-Allow-Origin`; any other (or absent) `Origin`
gets the first allow-list entry; the first-revision `withCorsHeaders`
always sets its single configured origin, which is also the head of the
allow-list. -/
theorem c6_cors_allow_origin (req : HttpRequest) (resp : HttpResponse) :
    (∀ o, req.origin = some o → o ∈ ALLOWED_ORIGINS →
       getHeader (withCorsHeadersB req resp).headers "Access-Control-Allow-Origin" = some o) ∧
    ((∀ o, req.origin = some o → o ∉ ALLOWED_ORIGINS) →
       getHeader (withCorsHeadersB req resp).headers "Access-Control-Allow-Origin" =
         some (ALLOWED_ORIGINS.getD 0 "")) ∧
    ALLOWED_ORIGINS.getD 0 "" = "https://misthub.com" ∧
    getHeader (withCorsHeaders resp).headers "Access-Control-Allow-Origin" =
      some ALLOWED_ORIGIN := by
  refine ⟨?_, ?_, by decide, ?_⟩
  · intro o ho hmem
    have hne : o ≠ "" := by
      intro h0
      subst h0
      revert hmem
      decide
    simp [withCorsHeadersB, ho, hne, hmem, getHeader_setHeader]
  · intro hno
    cases hor : req.origin with
    | none => simp [withCorsHeadersB, hor, getHeader_setHeader]
    | some o =>
        have hn : o ∉ ALLOWED_ORIGINS := hno o hor
        simp [withCorsHeadersB, hor, hn, getHeader_setHeader]
  · simp [withCorsHeaders, getHeader_setHeader]

/-- Witness for C6: an allow-listed origin is echoed, and a request without
an `Origin` header falls back to the first entry. -/
theorem c6_cors_allow_origin_witness :
    originReq.origin = some "https://ejuices.com" ∧
    "https://ejuices.com" ∈ ALLOWED_ORIGINS ∧
    getHeader (withCorsHeadersB originReq plainResp).headers "Access-Control-Allow-Origin" =
      some "https://ejuices.com" ∧
    getHeader (withCorsHeadersB postReq plainResp).headers "Access-Control-Allow-Origin" =
      some (ALLOWED_ORIGINS.getD 0 "") :=
  ⟨rfl, by decide,
   (c6_cors_allow_origin originReq plainResp).1 "https://ejuices.com" rfl (by decide),
   (c6_cors_allow_origin postReq plainResp).2.1
     (fun o h => by simp [postReq] at h)⟩

/-- Counterexample to C7 as stated: the `part_000` revision has no `OPTIONS`
branch, so `OPTIONS /tickets` is routed like any other method and yields
`202` with no `Access-Control-Allow-Origin` and no `Access-Control-Max-Age`
header. -/
theorem c7_counterexample_ff_options :
    (fetchFF okWorld optionsTicketsReq).1.status = 202 ∧
    getHeader (fetchFF okWorld optionsTicketsReq).1.headers "Access-Control-Allow-Origin" = none ∧
    getHeader (fetchFF okWorld optionsTicketsReq).1.headers "Access-Control-Max-Age" = none ∧
    ¬ (fetchFF okWorld optionsTicketsReq).1.status = 204 := by decide

/-- Claim C7 (amended): in both `index.ts` revisions every `OPTIONS` request,
regardless of path, is answered `204` with a non-empty
`Access-Control-Allow-Origin` and `Access-Control-Max-Age: 86400`; the
`part_000` revision has no `OPTIONS` handling and routes `OPTIONS` like any
other method (`202` on `/tickets`, `404` elsewhere, no CORS headers). -/
theorem c7_amended_options_preflight (w : World) (req : HttpRequest)
    (hm : req.method = "OPTIONS") :
    (fetchRouter w req).1.status = 204 ∧
    getHeader (fetchRouter w req).1.headers "Access-Control-Allow-Origin" =
      some ALLOWED_ORIGIN ∧
    ALLOWED_ORIGIN ≠ "" ∧
    getHeader (fetchRouter w req).1.headers "Access-Control-Max-Age" = some "86400" ∧
    (optionsResponseB req).status = 204 ∧
    (∃ o, getHeader (optionsResponseB req).headers "Access-Control-Allow-Origin" = some o ∧
       o ≠ "") ∧
    getHeader (optionsResponseB req).headers "Access-Control-Max-Age" = some "86400" ∧
    (fetchFF w req).1.status = (if req.path = "/tickets" then 202 else 404) := by
  refine ⟨?_, ?_, by decide, ?_, ?_, ?_, ?_, ?_⟩
  · simp [fetchRouter, hm, optionsResponse]
  · simp [fetchRouter, hm, optionsResponse, getHeader]
  · simp [fetchRouter, hm, optionsResponse, getHeader]
  · cases hor : req.origin with
    | none => simp [optionsResponseB, withCorsHeadersB, hor]
    | some o =>
        by_cases hc : o ≠ "" ∧ o ∈ ALLOWED_ORIGINS <;>
          simp [optionsResponseB, withCorsHeadersB, hor, hc]
  · cases hor : req.origin with
    | none =>
        exact ⟨ALLOWED_ORIGINS.getD 0 "",
          by simp [optionsResponseB, withCorsHeadersB, hor, getHeader_setHeader],
          by decide⟩
    | some o =>
        by_cases hc : o ≠ "" ∧ o ∈ ALLOWED_ORIGINS
        · exact ⟨o,
            by simp [optionsResponseB, withCorsHeadersB, hor, hc, getHeader_setHeader],
            hc.1⟩
        · exact ⟨ALLOWED_ORIGINS.getD 0 "",
            by simp [optionsResponseB, withCorsHeadersB, hor, hc, getHeader_setHeader],
            by decide⟩
  · have hne : ("Access-Control-Allow-Origin" : String) ≠ "Access-Control-Max-Age" := by
      decide
    cases hor : req.origin with
    | none =>
        simp only [optionsResponseB, withCorsHeadersB, hor]
        rw [getHeader_setHeader_ne _ _ _ _ hne]
        simp [getHeader]
    | some o =>
        by_cases hc : o ≠ "" ∧ o ∈ ALLOWED_ORIGINS
        · simp only [optionsResponseB, withCorsHeadersB, hor]
          rw [if_pos hc, getHeader_setHeader_ne _ _ _ _ hne]
          simp [getHeader]
        · simp only [optionsResponseB, withCorsHeadersB, hor]
          rw [if_neg hc, getHeader_setHeader_ne _ _ _ _ hne]
          simp [getHeader]
  · by_cases hp : req.path = "/tickets" <;> simp [fetchFF, hp]

/-- Witness for the amended C7 at `OPTIONS /tickets`. -/
theorem c7_amended_options_preflight_witness :
    optionsTicketsReq.method = "OPTIONS" ∧
    ((fetchRouter okWorld optionsTicketsReq).1.status = 204 ∧
     getHeader (fetchRouter okWorld optionsTicketsReq).1.headers "Access-Control-Allow-Origin" =
       some ALLOWED_ORIGIN ∧
     ALLOWED_ORIGIN ≠ "" ∧
     getHeader (fetchRouter okWorld optionsTicketsReq).1.headers "Access-Control-Max-Age" =
       some "86400" ∧
     (optionsResponseB optionsTicketsReq).status = 204 ∧
     (∃ o, getHeader (optionsResponseB optionsTicketsReq).headers "Access-Control-Allow-Origin" =
        some o ∧ o ≠ "") ∧
     getHeader (optionsResponseB optionsTicketsReq).headers "Access-Control-Max-Age" =
       some "86400" ∧
     (fetchFF okWorld optionsTicketsReq).1.status =
       (if optionsTicketsReq.path = "/tickets" then 202 else 404)) :=
  ⟨rfl, c7_amended_options_preflight okWorld optionsTicketsReq rfl⟩

/-- Claim C10: in both handler revisions, every helpdesk POST carries a
payload that is exactly the deterministic function `buildTicketPayload`
(resp. `buildTicketPayloadFF`) of the parsed submission alone — in
particular `contact.firstName` and `contact.lastName` both equal the
submission's `name`, and the submission's `email` appears top-level and as
`contact.email`. -/
theorem c10_posted_payload_shape (w : World) (req : HttpRequest)
    (hm : req.method = "POST") (td : TicketData) (hp : w.parseBody = Except.ok td)
    (tok : String) (ht : w.tokenResult = Except.ok tok) :
    (∀ p, Event.deskPost p ∈ (handleTicketCreation w req).2 → p = buildTicketPayload td) ∧
    Event.deskPost (buildTicketPayload td) ∈ (handleTicketCreation w req).2 ∧
    (buildTicketPayload td).contact.firstName = td.name ∧
    (buildTicketPayload td).contact.lastName = td.name ∧
    (buildTicketPayload td).email = td.email ∧
    (buildTicketPayload td).contact.email = td.email ∧
    (∀ p, Event.deskPost p ∈ (handleTicketCreationFF w req).2 → p = buildTicketPayloadFF td) ∧
    Event.deskPost (buildTicketPayloadFF td) ∈ (handleTicketCreationFF w req).2 ∧
    (buildTicketPayloadFF td).contact.firstName = td.name ∧
    (buildTicketPayloadFF td).contact.lastName = td.name ∧
    (buildTicketPayloadFF td).email = td.email ∧
    (buildTicketPayloadFF td).contact.email = td.email := by
  cases hd : w.deskJson with
  | error msg =>
      simp [handleTicketCreation, handleTicketCreationFF, buildTicketPayload,
        buildTicketPayloadFF, hm, hp, ht, hd]
  | ok data =>
      simp [handleTicketCreation, handleTicketCreationFF, buildTicketPayload,
        buildTicketPayloadFF, hm, hp, ht, hd]

/-- Witness for C10 on a successful run with the example submission. -/
theorem c10_posted_payload_shape_witness :
    postReq.method = "POST" ∧
    okWorld.parseBody = Except.ok janeTicket ∧
    okWorld.tokenResult = Except.ok "tok" ∧
    Event.deskPost (buildTicketPayload janeTicket) ∈ (handleTicketCreation okWorld postReq).2 ∧
    (buildTicketPayload janeTicket).contact.firstName = janeTicket.name ∧
    (buildTicketPayload janeTicket).contact.lastName = janeTicket.name ∧
    (buildTicketPayload janeTicket).email = janeTicket.email ∧
    (buildTicketPayload janeTicket).contact.email = janeTicket.email ∧
    Event.deskPost (buildTicketPayloadFF janeTicket) ∈
      (handleTicketCreationFF okWorld postReq).2 :=
  ⟨rfl, rfl, rfl,
   (c10_posted_payload_shape okWorld postReq rfl janeTicket rfl "tok" rfl).2.1,
   (c10_posted_payload_shape okWorld postReq rfl janeTicket rfl "tok" rfl).2.2.1,
   (c10_posted_payload_shape okWorld postReq rfl janeTicket rfl "tok" rfl).2.2.2.1,
   (c10_posted_payload_shape okWorld postReq rfl janeTicket rfl "tok" rfl).2.2.2.2.1,
   (c10_posted_payload_shape okWorld postReq rfl janeTicket rfl "tok" rfl).2.2.2.2.2.1,
   (c10_posted_payload_shape okWorld postReq rfl janeTicket rfl "tok" rfl).2.2.2.2.2.2.2.1⟩

/-- Modelled from the spec: the payload built by the enrichment-capable
revision when the submission carries an email (the enrichment results feed
the description; the rest of the shape is the common form-channel shape). -/
def enrichedPayload (w : World) (td : TicketData) : TicketPayload :=
  { subject := ticketSubject td
    email := td.email
    description := String.intercalate "<br/>"
      (enrichedDescriptionLines td w.customerResult (getOrderHistoryResult w))
    contact := { firstName := td.name, lastName := td.name, email := td.email }
    departmentId := td.departmentId }

/-- Modelled from the spec: the payload built by the enrichment-capable
revision when the submission carries no email (no enrichment data at all). -/
def plainEnrichedPayload (td : TicketData) : TicketPayload :=
  { subject := ticketSubject td
    email := td.email
    description := String.intercalate "<br/>" (enrichedDescriptionLines td none [])
    contact := { firstName := td.name, lastName := td.name, email := td.email }
    departmentId := td.departmentId }

theorem enriched_trace_email (w : World) (req : HttpRequest)
    (hm : req.method = "POST") (td : TicketData) (hp : w.parseBody = Except.ok td)
    (tok : String) (ht : w.tokenResult = Except.ok tok) (he : td.email ≠ "") :
    (handleTicketCreationEnriched w req).2 =
      [Event.tokenCall, Event.customerDetailsCall td.email, Event.orderHistoryCall td.email,
       Event.deskPost (enrichedPayload w td),
       (match w.deskJson with
        | Except.error msg => Event.log "error" "Error during ticket creation" (some msg)
        | Except.ok _ => Event.log "info" "Ticket created in Zoho Desk" none)] := by
  cases hd : w.deskJson <;>
    simp [handleTicketCreationEnriched, enrichedPayload, hm, hp, ht, hd, he]

theorem enriched_trace_no_email (w : World) (req : HttpRequest)
    (hm : req.method = "POST") (td : TicketData) (hp : w.parseBody = Except.ok td)
    (tok : String) (ht : w.tokenResult = Except.ok tok) (he : td.email = "") :
    (handleTicketCreationEnriched w req).2 =
      [Event.tokenCall, Event.deskPost (plainEnrichedPayload td),
       (match w.deskJson with
        | Except.error msg => Event.log "error" "Error during ticket creation" (some msg)
        | Except.ok _ => Event.log "info" "Ticket created in Zoho Desk" none)] := by
  cases hd : w.deskJson <;>
    simp [handleTicketCreationEnriched, plainEnrichedPayload, hm, hp, ht, hd, he]

theorem orderSection_getElem (A : List String) (l : List OrderRecord)
    (i : Nat) (hi : i < l.length) :
    (A ++ ("<div><strong>Order History:</strong></div>" :: l.map orderLine))[A.length + 1 + i]? =
      some (orderLine (l.get ⟨i, hi⟩)) := by
  rw [List.getElem?_append_right (by omega)]
  have hn : A.length + 1 + i - A.length = i + 1 := by omega
  rw [hn]
  simp [List.getElem?_map, List.getElem?_eq_getElem hi]

/-- Claim C5 (spec-modelled): in the enrichment-capable revision, a
submission with a (truthy) email triggers the customer-profile and
order-history reads strictly before the helpdesk POST, and the order lines
of the final description appear contiguously in exactly the backend's order
(at most 5 of them); a submission without an email triggers no enrichment
call, and its description lines are exactly the detail line plus the
optional order-number line. -/
theorem c5_enrichment_before_post (w : World) (req : HttpRequest)
    (hm : req.method = "POST") (td : TicketData) (hp : w.parseBody = Except.ok td)
    (tok : String) (ht : w.tokenResult = Except.ok tok) :
    (td.email ≠ "" →
       eventBefore (handleTicketCreationEnriched w req).2
         (Event.customerDetailsCall td.email) (Event.deskPost (enrichedPayload w td)) ∧
       eventBefore (handleTicketCreationEnriched w req).2
         (Event.orderHistoryCall td.email) (Event.deskPost (enrichedPayload w td)) ∧
       (getOrderHistoryResult w).length ≤ 5 ∧
       (getOrderHistoryResult w ≠ [] →
          ∃ n, ∀ i, ∀ hi : i < (getOrderHistoryResult w).length,
            (enrichedDescriptionLines td w.customerResult (getOrderHistoryResult w))[n + i]? =
              some (orderLine ((getOrderHistoryResult w).get ⟨i, hi⟩)))) ∧
    (td.email = "" →
       (∀ e, Event.customerDetailsCall e ∉ (handleTicketCreationEnriched w req).2) ∧
       (∀ e, Event.orderHistoryCall e ∉ (handleTicketCreationEnriched w req).2) ∧
       Event.deskPost (plainEnrichedPayload td) ∈ (handleTicketCreationEnriched w req).2 ∧
       enrichedDescriptionLines td none [] = descriptionLines td) := by
  constructor
  · intro he
    have htr := enriched_trace_email w req hm td hp tok ht he
    refine ⟨?_, ?_, ?_, ?_⟩
    · exact ⟨[Event.tokenCall], [Event.orderHistoryCall td.email], [_], htr⟩
    · exact ⟨[Event.tokenCall, Event.customerDetailsCall td.email], [], [_], htr⟩
    · simp [getOrderHistoryResult]
    · intro hne
      refine ⟨(descriptionLines td ++ customerSection w.customerResult).length + 1, ?_⟩
      intro i hi
      have hsec : orderSection (getOrderHistoryResult w) =
          "<div><strong>Order History:</strong></div>" ::
            (getOrderHistoryResult w).map orderLine := by
        simp [orderSection, hne]
      rw [enrichedDescriptionLines, hsec]
      exact orderSection_getElem (descriptionLines td ++ customerSection w.customerResult)
        (getOrderHistoryResult w) i hi
  · intro he
    have htr := enriched_trace_no_email w req hm td hp tok ht he
    rw [htr]
    refine ⟨?_, ?_, ?_, ?_⟩
    · intro e
      cases hd : w.deskJson <;> simp
    · intro e
      cases hd : w.deskJson <;> simp
    · simp
    · simp [enrichedDescriptionLines, customerSection, orderSection]

/-- Oracle whose enrichment answers are non-trivial: a matched customer and
two orders. -/
def enrichWorld : World :=
  { parseBody := Except.ok janeTicket, tokenResult := Except.ok "tok", deskStatus := 200
    deskJson := Except.ok "\x7b\x7d"
    customerResult := some { name := "Jane Doe", email := "jane@x.com" }
    orderHistory :=
      [{ id := "1001", total := "19.99", status := "complete" },
       { id := "0988", total := "5.00", status := "processing" }] }

/-- Submission identical to the example but with no email. -/
def noEmailTicket : TicketData := { janeTicket with email := "" }

/-- Oracle whose submission carries no email. -/
def noEmailWorld : World :=
  { parseBody := Except.ok noEmailTicket, tokenResult := Except.ok "tok", deskStatus := 200
    deskJson := Except.ok "\x7b\x7d", customerResult := none, orderHistory := [] }

/-- Witness for C5: with an email both enrichment reads precede the POST
and the first order line sits right after the history header; without an
email no enrichment event occurs. -/
theorem c5_enrichment_before_post_witness :
    janeTicket.email ≠ "" ∧
    eventBefore (handleTicketCreationEnriched enrichWorld postReq).2
      (Event.customerDetailsCall janeTicket.email)
      (Event.deskPost (enrichedPayload enrichWorld janeTicket)) ∧
    (getOrderHistoryResult enrichWorld).length ≤ 5 ∧
    noEmailTicket.email = "" ∧
    (∀ e, Event.customerDetailsCall e ∉ (handleTicketCreationEnriched noEmailWorld postReq).2) ∧
    enrichedDescriptionLines noEmailTicket none [] = descriptionLines noEmailTicket :=
  ⟨by decide,
   ((c5_enrichment_before_post enrichWorld postReq rfl janeTicket rfl "tok" rfl).1
      (by decide)).1,
   ((c5_enrichment_before_post enrichWorld postReq rfl janeTicket rfl "tok" rfl).1
      (by decide)).2.2.1,
   rfl,
   ((c5_enrichment_before_post noEmailWorld postReq rfl noEmailTicket rfl "tok" rfl).2
      rfl).1,
   ((c5_enrichment_before_post noEmailWorld postReq rfl noEmailTicket rfl "tok" rfl).2
      rfl).2.2.2⟩
